import Mathlib

/-!
Verification development for the InsForge Authentication and Verification
Core.  The definitions below are a shallow embedding of the TypeScript
sources (auth.otp.ts, auth.config.ts, rate-limiters.ts, the OAuth router,
and migration 015); the theorems settle the frozen specification claims
against them.  Timestamps are modelled as natural numbers of milliseconds
since the epoch, as produced by Date.now().
-/

namespace InsForge

/-! ## Error model, from the AppError middleware and error-constants. -/

inductive ErrorCode where
  | INVALID_INPUT
  | INTERNAL_ERROR
  | AUTH_OAUTH_CONFIG_ERROR
  | TOO_MANY_REQUESTS
  deriving DecidableEq

structure AppError where
  message : String
  status : Nat
  code : ErrorCode
  deriving DecidableEq

/-! ## JavaScript string primitives used by the middleware and routes,
    embedded over character lists so they compute in the kernel. -/

/-- ASCII lowercasing of one character, as String.prototype.toLowerCase
acts on the ASCII range relevant to email addresses. -/
def lowerChar (c : Char) : Char :=
  match c with
  | 'A' => 'a' | 'B' => 'b' | 'C' => 'c' | 'D' => 'd' | 'E' => 'e'
  | 'F' => 'f' | 'G' => 'g' | 'H' => 'h' | 'I' => 'i' | 'J' => 'j'
  | 'K' => 'k' | 'L' => 'l' | 'M' => 'm' | 'N' => 'n' | 'O' => 'o'
  | 'P' => 'p' | 'Q' => 'q' | 'R' => 'r' | 'S' => 's' | 'T' => 't'
  | 'U' => 'u' | 'V' => 'v' | 'W' => 'w' | 'X' => 'x' | 'Y' => 'y'
  | 'Z' => 'z' | other => other

/-- String.prototype.toLowerCase. -/
def jsToLowerCase (s : String) : String :=
  String.mk (s.data.map lowerChar)

def splitCharAux (sep : Char) : List Char → List Char → List String
  | [], acc => [String.mk acc.reverse]
  | c :: rest, acc =>
    if decide (c = sep) then String.mk acc.reverse :: splitCharAux sep rest []
    else splitCharAux sep rest (c :: acc)

/-- String.prototype.split with a one-character separator; splitting the
empty string yields one empty piece, as in JavaScript. -/
def jsSplitChar (sep : Char) (s : String) : List String :=
  splitCharAux sep s.data []

/-- String.prototype.trim. -/
def jsTrim (s : String) : String :=
  String.mk (((s.data.dropWhile Char.isWhitespace).reverse.dropWhile Char.isWhitespace).reverse)

/-! ## Email OTP ledger, from src/backend/src/core/auth/auth.otp.ts
    (latest revision: row lock, conditional consume, out-of-band
    attempt increment) and migration 015. -/

inductive EmailOTPPurpose where
  | VERIFY_EMAIL
  | RESET_PASSWORD
  deriving DecidableEq

/-- Model of the bcryptjs collaborator: a stored hash is an opaque value
from which bcrypt.compare recovers exactly whether the candidate equals
the code that was hashed. -/
structure BcryptHash where
  hashedCode : String
  deriving DecidableEq

def bcryptHash (code : String) : BcryptHash := ⟨code⟩

def bcryptCompare (candidate : String) (h : BcryptHash) : Bool :=
  decide (candidate = h.hashedCode)

/-- One row of the _email_otps table (migration 015). -/
structure OtpRecord where
  id : Nat
  email : String
  purpose : EmailOTPPurpose
  codeHash : BcryptHash
  expiresAt : Nat
  consumedAt : Option Nat
  attemptsCount : Nat
  updatedAt : Nat
  deriving DecidableEq

/-- Configuration constant of AuthOTPService: 60 minutes expiry. -/
def OTP_EXPIRY_MINUTES : Nat := 60

/-- Configuration constant of AuthOTPService: maximum verification attempts. -/
def MAX_ATTEMPTS : Nat := 5

/-- The row filter WHERE email = $1 AND purpose = $2. -/
def matchesPair (r : OtpRecord) (email : String) (purpose : EmailOTPPurpose) : Bool :=
  decide (r.email = email) && decide (r.purpose = purpose)

def findOtp (table : List OtpRecord) (email : String) (purpose : EmailOTPPurpose) :
    Option OtpRecord :=
  table.find? (fun r => matchesPair r email purpose)

/-- INSERT INTO _email_otps ... ON CONFLICT (email, purpose) DO UPDATE SET
code_hash, expires_at, consumed_at = NULL, attempts_count = 0, updated_at. -/
def upsertEmailOTP (table : List OtpRecord) (email : String) (purpose : EmailOTPPurpose)
    (codeHash : BcryptHash) (expiresAt : Nat) (now : Nat) (newId : Nat) : List OtpRecord :=
  if table.any (fun r => matchesPair r email purpose) then
    table.map (fun r =>
      if matchesPair r email purpose then
        { r with codeHash := codeHash, expiresAt := expiresAt,
                 consumedAt := none, attemptsCount := 0, updatedAt := now }
      else r)
  else
    table ++ [⟨newId, email, purpose, codeHash, expiresAt, none, 0, now⟩]

structure CreateOTPResult where
  success : Bool
  code : String
  expiresAt : Nat
  deriving DecidableEq

/-- createEmailOTP.  The random numeric code is an input (produced by the
generateNumericCode collaborator); now is Date.now(); newId is the UUID
the database would mint for a fresh row. -/
def createEmailOTP (table : List OtpRecord) (email : String) (purpose : EmailOTPPurpose)
    (code : String) (now : Nat) (newId : Nat) : CreateOTPResult × List OtpRecord :=
  let codeHash := bcryptHash code
  let expiresAt := now + OTP_EXPIRY_MINUTES * 60 * 1000
  (⟨true, code, expiresAt⟩, upsertEmailOTP table email purpose codeHash expiresAt now newId)

/-- The single generic verification failure raised on every invalid path. -/
def invalidOrExpired : AppError :=
  ⟨"Invalid or expired verification code", 400, ErrorCode.INVALID_INPUT⟩

inductive VerifyResult where
  | ok (email : String) (purpose : EmailOTPPurpose)
  | err (e : AppError)
  deriving DecidableEq

/-- UPDATE _email_otps SET attempts_count = attempts_count + 1,
updated_at = NOW() WHERE id = $1. -/
def incrementAttempts (table : List OtpRecord) (i : Nat) (now : Nat) : List OtpRecord :=
  table.map (fun r =>
    if decide (r.id = i) then
      { r with attemptsCount := r.attemptsCount + 1, updatedAt := now }
    else r)

/-- UPDATE _email_otps SET consumed_at = NOW(), updated_at = NOW()
WHERE id = $1 AND consumed_at IS NULL; the first component is rowCount. -/
def consumeIfUnconsumed (table : List OtpRecord) (i : Nat) (now : Nat) :
    Nat × List OtpRecord :=
  ((table.filter (fun r => decide (r.id = i) && r.consumedAt.isNone)).length,
   table.map (fun r =>
     if decide (r.id = i) && r.consumedAt.isNone then
       { r with consumedAt := some now, updatedAt := now }
     else r))

/-- The combined reject condition checked after the row fetch:
attempts_count at the cap, expired, or already consumed. -/
def otpGuardFails (r : OtpRecord) (now : Nat) : Bool :=
  decide (MAX_ATTEMPTS ≤ r.attemptsCount) || decide (r.expiresAt < now) || r.consumedAt.isSome

/-- verifyEmailOTP in the service-managed-transaction case.  The SELECT ...
FOR UPDATE serializes concurrent verifiers of the same (email, purpose)
row, so concurrent attempts are modelled as a serial schedule of calls. -/
def verifyEmailOTP (table : List OtpRecord) (email : String) (purpose : EmailOTPPurpose)
    (code : String) (now : Nat) : VerifyResult × List OtpRecord :=
  match findOtp table email purpose with
  | none => (.err invalidOrExpired, table)
  | some r =>
    if otpGuardFails r now then
      (.err invalidOrExpired, table)
    else if bcryptCompare code r.codeHash then
      let step := consumeIfUnconsumed table r.id now
      if decide (step.1 = 1) then (.ok r.email r.purpose, step.2)
      else (.err invalidOrExpired, table)
    else
      (.err invalidOrExpired, incrementAttempts table r.id now)

/-- State seen by a verification running inside a caller-managed
transaction: the durably committed table, and the transactional view of
the caller whose client the service was handed. -/
structure TxnState where
  committed : List OtpRecord
  txnView : List OtpRecord
  deriving DecidableEq

/-- verifyEmailOTP in the external-client case: reads and the conditional
consume go through the caller client inside the caller transaction, but
the attempt increment on hash mismatch is issued through a freshly
acquired pool connection, which commits independently. -/
def verifyEmailOTPExternal (s : TxnState) (email : String) (purpose : EmailOTPPurpose)
    (code : String) (now : Nat) : VerifyResult × TxnState :=
  match findOtp s.txnView email purpose with
  | none => (.err invalidOrExpired, s)
  | some r =>
    if otpGuardFails r now then (.err invalidOrExpired, s)
    else if bcryptCompare code r.codeHash then
      let step := consumeIfUnconsumed s.txnView r.id now
      if decide (step.1 = 1) then (.ok r.email r.purpose, { s with txnView := step.2 })
      else (.err invalidOrExpired, s)
    else
      (.err invalidOrExpired, { s with committed := incrementAttempts s.committed r.id now })

/-- The caller aborting its enclosing transaction: its uncommitted view is
discarded and only the committed table survives. -/
def rollbackExternal (s : TxnState) : List OtpRecord := s.committed

/-- A serial schedule of verification attempts (code, time) against one
(email, purpose) pair, as enforced by the FOR UPDATE row lock. -/
def runVerifies (email : String) (purpose : EmailOTPPurpose) :
    List OtpRecord → List (String × Nat) → List VerifyResult × List OtpRecord
  | table, [] => ([], table)
  | table, (c, now) :: rest =>
    let step := verifyEmailOTP table email purpose c now
    let restRun := runVerifies email purpose step.2 rest
    (step.1 :: restRun.1, restRun.2)

def isOk : VerifyResult → Bool
  | .ok _ _ => true
  | .err _ => false

def countOk (results : List VerifyResult) : Nat := (results.filter isOk).length

/-- Number of rows of the table matching an (email, purpose) pair; the
UNIQUE (email, purpose) constraint of migration 015 keeps this at most
one. -/
def pairCount (t : List OtpRecord) (e : String) (p : EmailOTPPurpose) : Nat :=
  t.countP (fun r => matchesPair r e p)

/-! ## Auth config singleton, from src/backend/src/core/auth/auth.config.ts
    and migration 015 (_auth_configs with a unique index on the constant
    expression (1), so at most one row ever exists; the store is modelled
    as Option of that one row). -/

structure AuthConfigRow where
  id : Nat
  requireEmailVerification : Bool
  passwordMinLength : Nat
  requireNumber : Bool
  requireLowercase : Bool
  requireUppercase : Bool
  requireSpecialChar : Bool
  verifyEmailUrl : Option String
  resetPasswordUrl : Option String
  deriving DecidableEq

/-- The default row inserted by createDefaultConfig:
[false, 6, false, false, false, false, null, null]. -/
def defaultAuthConfigRow (newId : Nat) : AuthConfigRow :=
  ⟨newId, false, 6, false, false, false, false, none, none⟩

/-- INSERT INTO _auth_configs ... ON CONFLICT ON CONSTRAINT
idx_auth_configs_singleton DO NOTHING RETURNING ...: the first component
is the RETURNING result (none when the conditional insert affected zero
rows), the second the store afterwards.  The conditional insert never
raises a uniqueness violation. -/
def insertDefaultConfig (store : Option AuthConfigRow) (newId : Nat) :
    Option AuthConfigRow × Option AuthConfigRow :=
  match store with
  | none => (some (defaultAuthConfigRow newId), some (defaultAuthConfigRow newId))
  | some r => (none, some r)

/-- createDefaultConfig: conditional insert; when it returns zero rows the
loser re-reads (SELECT ... LIMIT 1) and returns the existing row. -/
def createDefaultConfig (store : Option AuthConfigRow) (newId : Nat) :
    Option AuthConfigRow × Option AuthConfigRow :=
  match insertDefaultConfig store newId with
  | (some row, s2) => (some row, s2)
  | (none, s2) => (s2, s2)

/-- getEmailConfig: read the singleton; if absent, create the default. -/
def getEmailConfig (store : Option AuthConfigRow) (newId : Nat) :
    Option AuthConfigRow × Option AuthConfigRow :=
  match store with
  | some r => (some r, store)
  | none => createDefaultConfig store newId

/-- PUT body for the config update; none means the field was not supplied. -/
structure UpdateEmailAuthConfigRequest where
  requireEmailVerification : Option Bool
  passwordMinLength : Option Nat
  requireNumber : Option Bool
  requireLowercase : Option Bool
  requireUppercase : Option Bool
  requireSpecialChar : Option Bool
  verifyEmailUrl : Option (Option String)
  resetPasswordUrl : Option (Option String)
  deriving DecidableEq

def emptyUpdateRequest : UpdateEmailAuthConfigRequest :=
  ⟨none, none, none, none, none, none, none, none⟩

/-- The dynamic SET clause of updateEmailConfig: only supplied fields are
written, unsupplied fields are unchanged. -/
def applyConfigUpdates (r : AuthConfigRow) (u : UpdateEmailAuthConfigRequest) : AuthConfigRow :=
  { r with
    requireEmailVerification := u.requireEmailVerification.getD r.requireEmailVerification,
    passwordMinLength := u.passwordMinLength.getD r.passwordMinLength,
    requireNumber := u.requireNumber.getD r.requireNumber,
    requireLowercase := u.requireLowercase.getD r.requireLowercase,
    requireUppercase := u.requireUppercase.getD r.requireUppercase,
    requireSpecialChar := u.requireSpecialChar.getD r.requireSpecialChar,
    verifyEmailUrl := u.verifyEmailUrl.getD r.verifyEmailUrl,
    resetPasswordUrl := u.resetPasswordUrl.getD r.resetPasswordUrl }

def noUpdatesSupplied (u : UpdateEmailAuthConfigRequest) : Bool :=
  u.requireEmailVerification.isNone && u.passwordMinLength.isNone &&
  u.requireNumber.isNone && u.requireLowercase.isNone &&
  u.requireUppercase.isNone && u.requireSpecialChar.isNone &&
  u.verifyEmailUrl.isNone && u.resetPasswordUrl.isNone

/-- The CHECK constraint of migration 015:
password_min_length >= 4 AND password_min_length <= 128. -/
def passwordMinLengthCheck (n : Nat) : Bool :=
  decide (4 ≤ n) && decide (n ≤ 128)

def internalUpdateError : AppError :=
  ⟨"Failed to update email authentication configuration", 500, ErrorCode.INTERNAL_ERROR⟩

/-- updateEmailConfig: inside a transaction, ensure the singleton exists,
apply the supplied fields, and persist.  A write violating the database
CHECK constraint makes the query fail; the service catches it, rolls the
transaction back, and rethrows the 500 internal error. -/
def updateEmailConfig (store : Option AuthConfigRow) (u : UpdateEmailAuthConfigRequest)
    (newId : Nat) : Except AppError AuthConfigRow × Option AuthConfigRow :=
  let ensured := match store with
    | none => (createDefaultConfig store newId).2
    | some _ => store
  if noUpdatesSupplied u then
    match ensured with
    | some r => (.ok r, ensured)
    | none => (.error internalUpdateError, store)
  else
    match ensured with
    | some r =>
      let r2 := applyConfigUpdates r u
      if passwordMinLengthCheck r2.passwordMinLength then (.ok r2, some r2)
      else (.error internalUpdateError, store)
    | none => (.error internalUpdateError, store)

/-- Modelled from the spec: the request validation applied before
updatePolicy persists anything ("validates passwordMinLength bounds
before persisting"; "out-of-range length fails with a ValidationError").
The shared-schemas emailAuthConfigSchema and the route handler carrying
it are not among the sources here, only their callers and type imports;
the bounds [4, 128] follow the spec and the migration CHECK constraint. -/
def validationError : AppError :=
  ⟨"passwordMinLength must be between 4 and 128", 400, ErrorCode.INVALID_INPUT⟩

/-- Modelled from the spec: passwordMinLength bound validation of the
update request; an unsupplied field passes. -/
def validateUpdateRequest (u : UpdateEmailAuthConfigRequest) : Bool :=
  match u.passwordMinLength with
  | none => true
  | some n => passwordMinLengthCheck n

/-- Modelled from the spec: the update endpoint validates the request and
only then calls the updateEmailConfig service. -/
def updateEmailConfigEndpoint (store : Option AuthConfigRow)
    (u : UpdateEmailAuthConfigRequest) (newId : Nat) :
    Except AppError AuthConfigRow × Option AuthConfigRow :=
  if validateUpdateRequest u then updateEmailConfig store u newId
  else (.error validationError, store)

/-! ## Per-email cooldown, from src/backend/src/api/middleware/rate-limiters.ts -/

/-- The in-memory emailCooldowns map (email to last-request timestamp),
modelled by its lookup function; Map.prototype.set replaces or inserts
the binding for the key. -/
def emailCooldownSet (store : String → Option Nat) (email : String) (now : Nat) :
    String → Option Nat :=
  fun k => if decide (k = email) then some now else store k

inductive CooldownResult where
  | proceed
  | rejected (e : AppError)
  deriving DecidableEq

/-- The message of the 429 raised by perEmailCooldown. -/
def cooldownMessage (remainingSec : Nat) : String :=
  "Please wait " ++ toString remainingSec ++
    " seconds before requesting another code for this email"

/-- perEmailCooldown middleware.  bodyEmail is req.body?.email (absent
means no identity in the payload); the email is lowercased before lookup.
The truthiness test on the stored timestamp (lastRequest && ...) is
modelled by the nonzero guard. -/
def perEmailCooldown (cooldownMs : Nat) (store : String → Option Nat)
    (bodyEmail : Option String) (now : Nat) : CooldownResult × (String → Option Nat) :=
  match bodyEmail with
  | none => (.proceed, store)
  | some raw =>
    let email := jsToLowerCase raw
    match store email with
    | some lastRequest =>
      if decide (lastRequest ≠ 0) && decide (now - lastRequest < cooldownMs) then
        let remainingMs := cooldownMs - (now - lastRequest)
        let remainingSec := (remainingMs + 999) / 1000
        (.rejected ⟨cooldownMessage remainingSec, 429, ErrorCode.TOO_MANY_REQUESTS⟩, store)
      else
        (.proceed, emailCooldownSet store email now)
    | none => (.proceed, emailCooldownSet store email now)

/-- The cooldown window wired into sendEmailOTPLimiter. -/
def SEND_EMAIL_COOLDOWN_MS : Nat := 60000

/-! ## OAuth flow coordinator, from the OAuth router (src/unnamed/part_008,
    the cookie-based revision; part_007 is the earlier query-parameter
    revision with the same control flow for the claims below). -/

/-- Modelled from the spec: the supported identity-provider set behind
oAuthProvidersSchema (Google, GitHub); the shared-schemas file defining
the zod enum is not among the sources, only its import sites. -/
def supportedProviders : List String := ["google", "github"]

/-- Model of the platform URL parser: the protocol and host of a
successfully parsed redirect URI; none models a parse failure. -/
structure UrlParts where
  protocol : String
  host : String
  deriving DecidableEq

def invalidRedirectFormat : AppError :=
  ⟨"Invalid redirect URI format", 400, ErrorCode.INVALID_INPUT⟩

def oauthNotConfigured : AppError :=
  ⟨"OAuth redirect validation is not configured. OAUTH_ALLOWED_ORIGINS must be set.",
   500, ErrorCode.AUTH_OAUTH_CONFIG_ERROR⟩

def redirectOriginNotAllowed : AppError :=
  ⟨"Redirect origin not allowed", 400, ErrorCode.INVALID_INPUT⟩

/-- process.env.OAUTH_ALLOWED_ORIGINS?.split(',').map(trim) || []. -/
def parseAllowedOrigins : Option String → List String
  | none => []
  | some s => (jsSplitChar ',' s).map jsTrim

/-- validateRedirectOrigin: reject unparseable URIs, fail closed when no
allow-list is configured, reject origins absent from the allow-list, and
otherwise return the normalized origin protocol // host. -/
def validateRedirectOrigin (parsedUrl : Option UrlParts) (envAllowedOrigins : Option String) :
    Except AppError String :=
  match parsedUrl with
  | none => .error invalidRedirectFormat
  | some u =>
    let allowedOrigins := parseAllowedOrigins envAllowedOrigins
    if decide (allowedOrigins.length = 0) then
      .error oauthNotConfigured
    else
      let origin := u.protocol ++ "//" ++ u.host
      if allowedOrigins.contains origin then .ok origin
      else .error redirectOriginNotAllowed

/-- The state ticket payload signed into the OAuth state parameter. -/
structure StatePayload where
  provider : String
  origin : String
  createdAt : Nat
  deriving DecidableEq

def unsupportedProvider (p : String) : AppError :=
  ⟨"Unsupported OAuth provider: " ++ p, 400, ErrorCode.INVALID_INPUT⟩

def redirectUriRequired : AppError :=
  ⟨"Redirect URI is required", 400, ErrorCode.INVALID_INPUT⟩

/-- GET /:provider — beginOAuth: validate the provider against the
supported set, require a redirect_uri, validate its origin, and mint the
signed state ticket embedding provider, origin and creation time. -/
def beginOAuthRoute (provider : String) (redirectUriPresent : Bool)
    (parsedUrl : Option UrlParts) (envAllowedOrigins : Option String) (now : Nat) :
    Except AppError StatePayload :=
  if supportedProviders.contains provider then
    if redirectUriPresent then
      match validateRedirectOrigin parsedUrl envAllowedOrigins with
      | .ok origin => .ok ⟨provider, origin, now⟩
      | .error e => .error e
    else .error redirectUriRequired
  else .error (unsupportedProvider provider)

inductive CallbackResult where
  | success (origin : String) (exchangedProvider : String)
  | failRedirect (origin : String)
  | errorRedirect (origin : String) (e : AppError)
  deriving DecidableEq

def DEFAULT_FRONTEND_ORIGIN : String := "http://localhost:3000"

/-- GET /:provider/callback.  stateParam is none when no state query
parameter was sent, some none when the signature check on the state
fails, and some (some p) when jwt.verify recovers the payload p; in the
latter case only its origin is used (falling back to the default when
empty).  The provider actually used for the code or token exchange is
the route path parameter, validated against the supported set; exchange
models authService.handleOAuthCallback, returning an access token on
success.  On success cookies are set and the browser is redirected to
origin with success=true; on exchange failure cookies are cleared and
the browser is redirected to origin with a generic error. -/
def providerCallbackRoute (routeProvider : String)
    (stateParam : Option (Option StatePayload))
    (exchange : String → Option String)
    (defaultOrigin : String) : CallbackResult :=
  let origin := match stateParam with
    | some (some p) => if decide (p.origin ≠ "") then p.origin else defaultOrigin
    | _ => defaultOrigin
  if supportedProviders.contains routeProvider then
    match exchange routeProvider with
    | some _ => .success origin routeProvider
    | none => .failRedirect origin
  else
    .errorRedirect origin (unsupportedProvider routeProvider)

/-! ## Helper lemmas -/

theorem findOtp_map (t : List OtpRecord) (f : OtpRecord → OtpRecord)
    (hf : ∀ r, (f r).email = r.email ∧ (f r).purpose = r.purpose)
    (e : String) (p : EmailOTPPurpose) :
    findOtp (t.map f) e p = (findOtp t e p).map f := by
  induction t with
  | nil => rfl
  | cons a t ih =>
    have hm : matchesPair (f a) e p = matchesPair a e p := by
      unfold matchesPair
      rw [(hf a).1, (hf a).2]
    by_cases h : matchesPair a e p = true
    · simp [findOtp, List.find?, hm, h]
    · have h2 : matchesPair a e p = false := by
        cases hx : matchesPair a e p
        · rfl
        · exact absurd hx h
      simp only [findOtp, List.map_cons, List.find?] at *
      rw [hm, h2]
      exact ih

theorem findOtp_mem (t : List OtpRecord) (e : String) (p : EmailOTPPurpose) (r : OtpRecord)
    (h : findOtp t e p = some r) : r ∈ t ∧ matchesPair r e p = true := by
  unfold findOtp at h
  exact ⟨List.mem_of_find?_eq_some h, @List.find?_some OtpRecord (fun r => matchesPair r e p) r t h⟩

/-- Case analysis of verifyEmailOTP: either the call succeeds through the
conditional consume with rowCount one, or it reports the generic error. -/
theorem verify_cases (t : List OtpRecord) (e : String) (p : EmailOTPPurpose)
    (c : String) (now : Nat) :
    (∃ r, findOtp t e p = some r ∧ otpGuardFails r now = false ∧
       bcryptCompare c r.codeHash = true ∧ (consumeIfUnconsumed t r.id now).1 = 1 ∧
       verifyEmailOTP t e p c now = (.ok r.email r.purpose, (consumeIfUnconsumed t r.id now).2)) ∨
    (verifyEmailOTP t e p c now).1 = .err invalidOrExpired := by
  by_cases hexists : ∃ r, findOtp t e p = some r
  · obtain ⟨r, hf⟩ := hexists
    by_cases hg : otpGuardFails r now = true
    · right
      simp [verifyEmailOTP, hf, hg]
    · by_cases hc : bcryptCompare c r.codeHash = true
      · by_cases hcnt : (consumeIfUnconsumed t r.id now).1 = 1
        · left
          refine ⟨r, hf, by simpa using hg, hc, hcnt, ?_⟩
          simp [verifyEmailOTP, hf, hg, hc, hcnt]
        · right
          simp [verifyEmailOTP, hf, hg, hc, hcnt]
      · right
        simp [verifyEmailOTP, hf, hg, hc]
  · right
    cases hf : findOtp t e p with
    | none => simp [verifyEmailOTP, hf]
    | some r => exact absurd ⟨r, hf⟩ hexists

/-- A successful verification comes from an unconsumed, in-guard record
with a matching hash, and the new table is the conditional consume. -/
theorem verify_ok_sound (t : List OtpRecord) (e : String) (p : EmailOTPPurpose)
    (c : String) (now : Nat) (a : String) (b : EmailOTPPurpose) (t2 : List OtpRecord)
    (h : verifyEmailOTP t e p c now = (.ok a b, t2)) :
    ∃ r, findOtp t e p = some r ∧ otpGuardFails r now = false ∧
      bcryptCompare c r.codeHash = true ∧ t2 = (consumeIfUnconsumed t r.id now).2 := by
  rcases verify_cases t e p c now with ⟨r, hf, hg, hc, hcnt, heq⟩ | herr
  · rw [heq] at h
    have h2 := congrArg Prod.snd h
    simp only at h2
    exact ⟨r, hf, hg, hc, h2.symm⟩
  · rw [h] at herr
    simp at herr

/-- After a successful verification, the record found for the pair is
consumed at the verification time. -/
theorem verify_ok_consumes (t : List OtpRecord) (e : String) (p : EmailOTPPurpose)
    (c : String) (now : Nat) (a : String) (b : EmailOTPPurpose) (t2 : List OtpRecord)
    (h : verifyEmailOTP t e p c now = (.ok a b, t2)) :
    ∀ q, findOtp t2 e p = some q → q.consumedAt = some now := by
  rcases verify_ok_sound t e p c now a b t2 h with ⟨r, hf, hg, _, ht⟩
  intro q hq
  have hmap : findOtp t2 e p
      = (findOtp t e p).map (fun x =>
          if decide (x.id = r.id) && x.consumedAt.isNone then
            { x with consumedAt := some now, updatedAt := now }
          else x) := by
    rw [ht]
    exact findOtp_map t _ (fun x => by
      by_cases hx : (decide (x.id = r.id) && x.consumedAt.isNone) = true
      · simp [hx]
      · simp [hx]) e p
  rw [hmap, hf] at hq
  have hnone : r.consumedAt.isNone = true := by
    cases hcons : r.consumedAt with
    | none => rfl
    | some v =>
      unfold otpGuardFails at hg
      rw [hcons] at hg
      simp at hg
  have hq2 : (if decide (r.id = r.id) && r.consumedAt.isNone then
      { r with consumedAt := some now, updatedAt := now } else r) = q := by
    simpa using hq
  rw [← hq2]
  simp [hnone]

/-- When every record found for the pair is already consumed, verification
reports the generic error and leaves the table unchanged. -/
theorem verify_blocked_fails (t : List OtpRecord) (e : String) (p : EmailOTPPurpose)
    (c : String) (now : Nat)
    (hb : ∀ r, findOtp t e p = some r → r.consumedAt.isSome = true) :
    verifyEmailOTP t e p c now = (.err invalidOrExpired, t) := by
  cases hf : findOtp t e p with
  | none => simp [verifyEmailOTP, hf]
  | some r =>
    have hg : otpGuardFails r now = true := by
      unfold otpGuardFails
      rw [hb r hf]
      simp
    simp [verifyEmailOTP, hf, hg]

theorem countOk_cons (x : VerifyResult) (xs : List VerifyResult) :
    countOk (x :: xs) = (if isOk x = true then 1 else 0) + countOk xs := by
  unfold countOk
  rw [List.filter_cons]
  by_cases h : isOk x = true
  · simp [h, Nat.add_comm]
  · simp [h]

/-- Once the pair is blocked (its record consumed), a whole schedule of
further verification attempts yields no success. -/
theorem run_blocked_no_success (e : String) (p : EmailOTPPurpose)
    (l : List (String × Nat)) (t : List OtpRecord)
    (hb : ∀ r, findOtp t e p = some r → r.consumedAt.isSome = true) :
    countOk (runVerifies e p t l).1 = 0 := by
  induction l with
  | nil => rfl
  | cons hd tl ih =>
    obtain ⟨c, now⟩ := hd
    have hstep := verify_blocked_fails t e p c now hb
    simp only [runVerifies, hstep]
    rw [countOk_cons]
    simpa [isOk] using ih

/-- C1: over any serial schedule of verification attempts against one
(email, purpose) pair — the serialization the SELECT ... FOR UPDATE row
lock enforces — at most one attempt succeeds, and a success marks the
record consumed through the conditional update, so every later attempt
observes the generic error. -/
theorem verifyEmailOTP_single_use (table : List OtpRecord) (e : String)
    (p : EmailOTPPurpose) (attempts : List (String × Nat)) :
    countOk (runVerifies e p table attempts).1 ≤ 1 ∧
    (∀ c now a b t2, verifyEmailOTP table e p c now = (.ok a b, t2) →
       ∀ q, findOtp t2 e p = some q → q.consumedAt = some now) := by
  constructor
  · induction attempts generalizing table with
    | nil => simp [runVerifies, countOk, List.filter]
    | cons hd tl ih =>
      obtain ⟨c, now⟩ := hd
      cases hstep : verifyEmailOTP table e p c now with
      | mk res t2 =>
        cases res with
        | ok a b =>
          have hblocked : ∀ r, findOtp t2 e p = some r → r.consumedAt.isSome = true := by
            intro r hr
            rw [verify_ok_consumes table e p c now a b t2 hstep r hr]
            rfl
          have hrest := run_blocked_no_success e p tl t2 hblocked
          simp only [runVerifies, hstep]
          rw [countOk_cons]
          simp [isOk, hrest]
        | err ex =>
          simp only [runVerifies, hstep]
          rw [countOk_cons]
          simpa [isOk] using ih t2
  · intro c now a b t2 h q hq
    exact verify_ok_consumes table e p c now a b t2 h q hq

/-- C1 witness: a concrete two-attempt schedule with the correct code
yields at most one success, and the concrete successful verification
leaves the stored record consumed at the verification time. -/
theorem verifyEmailOTP_single_use_witness :
    countOk (runVerifies "user@example.com" .VERIFY_EMAIL
        [⟨1, "user@example.com", .VERIFY_EMAIL, bcryptHash "123456", 1000, none, 0, 0⟩]
        [("123456", 100), ("123456", 200)]).1 ≤ 1 ∧
    (⟨1, "user@example.com", .VERIFY_EMAIL, bcryptHash "123456", 1000, some 100, 0, 100⟩ :
        OtpRecord).consumedAt = some 100 := by
  have h := verifyEmailOTP_single_use
    [⟨1, "user@example.com", .VERIFY_EMAIL, bcryptHash "123456", 1000, none, 0, 0⟩]
    "user@example.com" .VERIFY_EMAIL [("123456", 100), ("123456", 200)]
  refine ⟨h.1, ?_⟩
  exact h.2 "123456" 100 "user@example.com" .VERIFY_EMAIL
    [⟨1, "user@example.com", .VERIFY_EMAIL, bcryptHash "123456", 1000, some 100, 0, 100⟩]
    (by decide)
    ⟨1, "user@example.com", .VERIFY_EMAIL, bcryptHash "123456", 1000, some 100, 0, 100⟩
    (by decide)

/-- The verdict on a record whose guard rejects it. -/
theorem verify_guard_err (t : List OtpRecord) (e : String) (p : EmailOTPPurpose)
    (c : String) (now : Nat) (r : OtpRecord)
    (hf : findOtp t e p = some r) (hg : otpGuardFails r now = true) :
    verifyEmailOTP t e p c now = (.err invalidOrExpired, t) := by
  simp [verifyEmailOTP, hf, hg]

/-- The verdict and table on a hash mismatch. -/
theorem verify_mismatch (t : List OtpRecord) (e : String) (p : EmailOTPPurpose)
    (c : String) (now : Nat) (r : OtpRecord)
    (hf : findOtp t e p = some r) (hg : otpGuardFails r now = false)
    (hc : bcryptCompare c r.codeHash = false) :
    verifyEmailOTP t e p c now = (.err invalidOrExpired, incrementAttempts t r.id now) := by
  simp [verifyEmailOTP, hf, hg, hc]

/-- Finding the pair after an attempt increment. -/
theorem findOtp_incrementAttempts (t : List OtpRecord) (e : String) (p : EmailOTPPurpose)
    (r : OtpRecord) (now : Nat) (hf : findOtp t e p = some r) :
    findOtp (incrementAttempts t r.id now) e p
      = some { r with attemptsCount := r.attemptsCount + 1, updatedAt := now } := by
  unfold incrementAttempts
  rw [findOtp_map t _ (fun x => by
    by_cases hx : decide (x.id = r.id) = true
    · simp [hx]
    · simp [hx]) e p, hf]
  simp

/-- Running a schedule of wrong in-window guesses accumulates exactly one
attempt per guess and changes nothing else the verifier reads. -/
theorem run_wrong_attempts (e : String) (p : EmailOTPPurpose)
    (wrongs : List (String × Nat)) :
    ∀ (t : List OtpRecord) (r : OtpRecord),
      findOtp t e p = some r →
      r.consumedAt = none →
      r.attemptsCount + wrongs.length ≤ MAX_ATTEMPTS →
      (∀ w ∈ wrongs, bcryptCompare w.1 r.codeHash = false ∧ w.2 ≤ r.expiresAt) →
      ∃ q, findOtp (runVerifies e p t wrongs).2 e p = some q ∧
        q.attemptsCount = r.attemptsCount + wrongs.length ∧
        q.codeHash = r.codeHash ∧ q.consumedAt = none ∧ q.expiresAt = r.expiresAt := by
  induction wrongs with
  | nil =>
    intro t r hf hcons _ _
    exact ⟨r, by simpa [runVerifies] using hf, by simp, rfl, hcons, rfl⟩
  | cons hd tl ih =>
    intro t r hf hcons hcap hwrong
    obtain ⟨c, now⟩ := hd
    have hg : otpGuardFails r now = false := by
      unfold otpGuardFails
      have h1 : ¬ (MAX_ATTEMPTS ≤ r.attemptsCount) := by
        simp only [List.length_cons] at hcap
        omega
      have h2 : ¬ (r.expiresAt < now) := by
        have := (hwrong (c, now) (by simp)).2
        omega
      simp [h1, h2, hcons]
    have hc : bcryptCompare c r.codeHash = false := (hwrong (c, now) (by simp)).1
    have hstep := verify_mismatch t e p c now r hf hg hc
    have hfind2 := findOtp_incrementAttempts t e p r now hf
    have hnext := ih (incrementAttempts t r.id now)
      { r with attemptsCount := r.attemptsCount + 1, updatedAt := now }
      hfind2 (by simp [hcons])
      (by
        simp only [List.length_cons] at hcap
        show r.attemptsCount + 1 + tl.length ≤ MAX_ATTEMPTS
        omega)
      (fun w hw => by simpa using hwrong w (List.mem_cons_of_mem _ hw))
    obtain ⟨q, hq1, hq2, hq3, hq4, hq5⟩ := hnext
    refine ⟨q, ?_, ?_, by simpa using hq3, hq4, by simpa using hq5⟩
    · simpa only [runVerifies, hstep] using hq1
    · simp only [List.length_cons]
      simp at hq2
      omega

/-- C2: every failure path of verifyEmailOTP — no row, attempt cap
reached, expired, already consumed, hash mismatch — raises the one
identical generic error; the mismatch path additionally increments
attemptsCount by exactly one; and after five cumulative wrong guesses a
sixth attempt with the correct code still fails with that same error. -/
theorem verifyEmailOTP_generic_error_and_attempt_cap (t : List OtpRecord) (e : String)
    (p : EmailOTPPurpose) (c : String) (now : Nat) :
    (findOtp t e p = none → verifyEmailOTP t e p c now = (.err invalidOrExpired, t)) ∧
    (∀ r, findOtp t e p = some r → MAX_ATTEMPTS ≤ r.attemptsCount →
       verifyEmailOTP t e p c now = (.err invalidOrExpired, t)) ∧
    (∀ r, findOtp t e p = some r → r.expiresAt < now →
       verifyEmailOTP t e p c now = (.err invalidOrExpired, t)) ∧
    (∀ r, findOtp t e p = some r → r.consumedAt.isSome = true →
       verifyEmailOTP t e p c now = (.err invalidOrExpired, t)) ∧
    (∀ r, findOtp t e p = some r → otpGuardFails r now = false →
       bcryptCompare c r.codeHash = false →
       verifyEmailOTP t e p c now = (.err invalidOrExpired, incrementAttempts t r.id now) ∧
       ∀ q, findOtp (incrementAttempts t r.id now) e p = some q →
         q.attemptsCount = r.attemptsCount + 1) ∧
    (∀ r (wrongs : List (String × Nat)), findOtp t e p = some r →
       r.attemptsCount = 0 → r.consumedAt = none → wrongs.length = 5 →
       (∀ w ∈ wrongs, bcryptCompare w.1 r.codeHash = false ∧ w.2 ≤ r.expiresAt) →
       ∀ now6, (verifyEmailOTP (runVerifies e p t wrongs).2 e p r.codeHash.hashedCode now6).1
         = .err invalidOrExpired) := by
  refine ⟨?_, ?_, ?_, ?_, ?_, ?_⟩
  · intro hf
    simp [verifyEmailOTP, hf]
  · intro r hf hcap
    exact verify_guard_err t e p c now r hf (by simp [otpGuardFails, hcap])
  · intro r hf hexp
    exact verify_guard_err t e p c now r hf (by simp [otpGuardFails, hexp])
  · intro r hf hcons
    exact verify_guard_err t e p c now r hf (by simp [otpGuardFails, hcons])
  · intro r hf hg hc
    refine ⟨verify_mismatch t e p c now r hf hg hc, ?_⟩
    intro q hq
    rw [findOtp_incrementAttempts t e p r now hf] at hq
    rw [← Option.some.injEq _ _ |>.mp hq]
  · intro r wrongs hf h0 hcons hlen hwrong now6
    obtain ⟨q, hq1, hq2, hq3, hq4, hq5⟩ :=
      run_wrong_attempts e p wrongs t r hf hcons (by rw [hlen, h0]; decide) hwrong
    have hcap : MAX_ATTEMPTS ≤ q.attemptsCount := by
      rw [hq2, h0, hlen]
      decide
    have := verify_guard_err (runVerifies e p t wrongs).2 e p r.codeHash.hashedCode now6 q hq1
      (by simp [otpGuardFails, hcap])
    rw [this]

/-- C2 witness: a concrete fresh record, five concrete wrong guesses, and
then the correct code at a sixth attempt still gets the generic error. -/
theorem verifyEmailOTP_generic_error_witness :
    (verifyEmailOTP
      (runVerifies "user@example.com" .VERIFY_EMAIL
        [⟨1, "user@example.com", .VERIFY_EMAIL, bcryptHash "123456", 1000, none, 0, 0⟩]
        [("000000", 10), ("000001", 20), ("000002", 30), ("000003", 40), ("000004", 50)]).2
      "user@example.com" .VERIFY_EMAIL "123456" 60).1 = .err invalidOrExpired := by
  have h := verifyEmailOTP_generic_error_and_attempt_cap
    [⟨1, "user@example.com", .VERIFY_EMAIL, bcryptHash "123456", 1000, none, 0, 0⟩]
    "user@example.com" .VERIFY_EMAIL "123456" 60
  exact h.2.2.2.2.2
    ⟨1, "user@example.com", .VERIFY_EMAIL, bcryptHash "123456", 1000, none, 0, 0⟩
    [("000000", 10), ("000001", 20), ("000002", 30), ("000003", 40), ("000004", 50)]
    (by decide) rfl rfl rfl (by decide) 60

/-! ## Claim C5 -/

/-- C5 counterexample: the claim says the returned expiresAt is issuance
time plus exactly 15 minutes; at issuance time 0 the code returns
3600000 ms (60 minutes), not 900000 ms. -/
theorem createEmailOTP_expiry_not_15min :
    (createEmailOTP [] "user@example.com" .VERIFY_EMAIL "123456" 0 1).1.expiresAt = 3600000 ∧
    (createEmailOTP [] "user@example.com" .VERIFY_EMAIL "123456" 0 1).1.expiresAt ≠ 0 + 15 * 60 * 1000 := by
  exact ⟨by decide, by decide⟩

/-- C5 (amended): for every call to createEmailOTP, the returned expiresAt
equals the time of issuance plus exactly 60 minutes (OTP_EXPIRY_MINUTES),
and every stored record for the issued (email, purpose) pair carries that
same expiry. -/
theorem createEmailOTP_expiry_60min (table : List OtpRecord) (email : String)
    (purpose : EmailOTPPurpose) (code : String) (now newId : Nat) :
    (createEmailOTP table email purpose code now newId).1.expiresAt = now + 60 * 60 * 1000 ∧
    ∀ r ∈ (createEmailOTP table email purpose code now newId).2,
      matchesPair r email purpose = true → r.expiresAt = now + 60 * 60 * 1000 := by
  constructor
  · rfl
  · intro r hr hm
    unfold createEmailOTP upsertEmailOTP at hr
    simp only at hr
    by_cases h : table.any (fun q => matchesPair q email purpose) = true
    · rw [if_pos h] at hr
      rcases List.mem_map.mp hr with ⟨q, _, hq⟩
      by_cases hqm : matchesPair q email purpose = true
      · rw [if_pos hqm] at hq
        rw [← hq]
        rfl
      · rw [if_neg hqm] at hq
        rw [← hq] at hm
        exact absurd hm hqm
    · rw [if_neg h] at hr
      rcases List.mem_append.mp hr with hL | hR
      · exact absurd (List.any_eq_true.mpr ⟨r, hL, hm⟩) h
      · rcases List.mem_singleton.mp hR with rfl
        rfl

/-- C5 witness: a concrete issuance at time 1000 returns expiry 3601000,
and the concrete stored row carries the same expiry. -/
theorem createEmailOTP_expiry_60min_witness :
    (createEmailOTP [] "user@example.com" .VERIFY_EMAIL "123456" 1000 1).1.expiresAt
      = 1000 + 60 * 60 * 1000 ∧
    (⟨1, "user@example.com", .VERIFY_EMAIL, bcryptHash "123456",
        1000 + 60 * 60 * 1000, none, 0, 1000⟩ : OtpRecord).expiresAt
      = 1000 + 60 * 60 * 1000 := by
  have h := createEmailOTP_expiry_60min [] "user@example.com" .VERIFY_EMAIL "123456" 1000 1
  exact ⟨h.1, h.2
    ⟨1, "user@example.com", .VERIFY_EMAIL, bcryptHash "123456",
      1000 + 60 * 60 * 1000, none, 0, 1000⟩ (by decide) (by decide)⟩

/-! ## Claim C4 -/

/-- C4: serialized race on first-time creation of the config singleton:
the winner inserts the default row; the loser, whose earlier read saw no
row, runs createDefaultConfig against the store the winner already
populated — its conditional insert affects zero rows, it re-reads, and
both callers get the very same row (hence identical id), with no
uniqueness violation surfaced. -/
theorem getEmailConfig_concurrent_default_creation (id1 id2 : Nat) :
    (insertDefaultConfig (createDefaultConfig none id1).2 id2).1 = none ∧
    (createDefaultConfig none id1).1 = some (defaultAuthConfigRow id1) ∧
    (createDefaultConfig (createDefaultConfig none id1).2 id2).1 = (createDefaultConfig none id1).1 ∧
    (createDefaultConfig (createDefaultConfig none id1).2 id2).2 = some (defaultAuthConfigRow id1) := by
  exact ⟨rfl, rfl, rfl, rfl⟩

/-! ## Claim C7 -/

/-- C7 (spec-modelled validation layer): updating with passwordMinLength 3
fails with the ValidationError and leaves the store unchanged, while
passwordMinLength 4 succeeds and persists a row whose passwordMinLength
is 4. -/
theorem updateEmailConfig_passwordMinLength_bounds (r : AuthConfigRow) (newId : Nat) :
    (updateEmailConfigEndpoint (some r)
        { emptyUpdateRequest with passwordMinLength := some 3 } newId).1 = .error validationError ∧
    validationError.status = 400 ∧
    (updateEmailConfigEndpoint (some r)
        { emptyUpdateRequest with passwordMinLength := some 3 } newId).2 = some r ∧
    (updateEmailConfigEndpoint (some r)
        { emptyUpdateRequest with passwordMinLength := some 4 } newId).1
      = .ok (applyConfigUpdates r { emptyUpdateRequest with passwordMinLength := some 4 }) ∧
    (applyConfigUpdates r { emptyUpdateRequest with passwordMinLength := some 4 }).passwordMinLength = 4 ∧
    (updateEmailConfigEndpoint (some r)
        { emptyUpdateRequest with passwordMinLength := some 4 } newId).2
      = some (applyConfigUpdates r { emptyUpdateRequest with passwordMinLength := some 4 }) := by
  refine ⟨rfl, rfl, rfl, ?_, rfl, ?_⟩
  · unfold updateEmailConfigEndpoint updateEmailConfig
    rfl
  · unfold updateEmailConfigEndpoint updateEmailConfig
    rfl

/-! ## Claim C6 -/

/-- C6 counterexample: a state ticket embedding provider google, presented
to the github callback route with a succeeding exchange, completes the
exchange with github and redirects with success — it does not fail. -/
theorem providerCallback_mismatched_ticket_completes :
    providerCallbackRoute "github" (some (some ⟨"google", "http://app.example", 5⟩))
      (fun _ => some "token") DEFAULT_FRONTEND_ORIGIN
      = .success "http://app.example" "github" := by
  rfl

/-- C6 (amended): the callback route never compares the embedded provider
of the state ticket with the route actually invoked; the outcome depends
on the ticket only through its redirect origin, so a ticket for provider
A presented to the callback route of provider B proceeds with the
exchange for B instead of being rejected. -/
theorem providerCallback_ignores_ticket_provider (routeProvider a b origin : String)
    (t1 t2 : Nat) (exchange : String → Option String) (defaultOrigin : String) :
    providerCallbackRoute routeProvider (some (some ⟨a, origin, t1⟩)) exchange defaultOrigin
      = providerCallbackRoute routeProvider (some (some ⟨b, origin, t2⟩)) exchange defaultOrigin := by
  rfl

/-! ## Claim C8 -/

/-- Resetting the matching rows of the upsert leaves every pair count of
the table unchanged. -/
theorem pairCount_map_reset (t : List OtpRecord) (e : String) (p : EmailOTPPurpose)
    (ch : BcryptHash) (exp now : Nat) (e2 : String) (p2 : EmailOTPPurpose) :
    pairCount (t.map (fun r =>
      if matchesPair r e p then
        { r with codeHash := ch, expiresAt := exp, consumedAt := none,
                 attemptsCount := 0, updatedAt := now }
      else r)) e2 p2 = pairCount t e2 p2 := by
  unfold pairCount
  rw [List.countP_map]
  congr 1
  funext x
  show matchesPair
    (if matchesPair x e p then
      { x with codeHash := ch, expiresAt := exp, consumedAt := none,
               attemptsCount := 0, updatedAt := now }
     else x) e2 p2 = matchesPair x e2 p2
  by_cases hx : matchesPair x e p = true
  · rw [if_pos hx]
    rfl
  · rw [if_neg hx]

/-- C8: after createEmailOTP for a pair, the table holds exactly one row
for that pair; that row has attemptsCount zero, consumedAt null, the new
hash and the new expiry; and the at-most-one-row-per-pair discipline of
the UNIQUE constraint is preserved for every pair. -/
theorem createEmailOTP_upsert_single_active_row (t : List OtpRecord) (e : String)
    (p : EmailOTPPurpose) (c : String) (now newId : Nat)
    (huniq : ∀ e2 p2, pairCount t e2 p2 ≤ 1) :
    pairCount (createEmailOTP t e p c now newId).2 e p = 1 ∧
    (∀ r ∈ (createEmailOTP t e p c now newId).2, matchesPair r e p = true →
       r.attemptsCount = 0 ∧ r.consumedAt = none ∧ r.codeHash = bcryptHash c ∧
       r.expiresAt = now + 60 * 60 * 1000) ∧
    (∀ e2 p2, pairCount (createEmailOTP t e p c now newId).2 e2 p2 ≤ 1) := by
  have hsnd : (createEmailOTP t e p c now newId).2
      = upsertEmailOTP t e p (bcryptHash c) (now + OTP_EXPIRY_MINUTES * 60 * 1000) now newId := rfl
  by_cases hany : (t.any fun r => matchesPair r e p) = true
  · have ht2 : (createEmailOTP t e p c now newId).2
        = t.map (fun r =>
            if matchesPair r e p then
              { r with codeHash := bcryptHash c,
                       expiresAt := now + OTP_EXPIRY_MINUTES * 60 * 1000,
                       consumedAt := none, attemptsCount := 0, updatedAt := now }
            else r) := by
      rw [hsnd]
      unfold upsertEmailOTP
      rw [if_pos hany]
    refine ⟨?_, ?_, ?_⟩
    · rw [ht2, pairCount_map_reset]
      have hpos : 0 < pairCount t e p := by
        unfold pairCount
        rw [List.countP_pos_iff]
        obtain ⟨r, hr, hm⟩ := List.any_eq_true.mp hany
        exact ⟨r, hr, hm⟩
      have := huniq e p
      omega
    · intro r hr hm
      rw [ht2] at hr
      obtain ⟨x, hx, hxr⟩ := List.mem_map.mp hr
      by_cases hxm : matchesPair x e p = true
      · rw [if_pos hxm] at hxr
        rw [← hxr]
        exact ⟨rfl, rfl, rfl, rfl⟩
      · rw [if_neg hxm] at hxr
        rw [← hxr] at hm
        exact absurd hm hxm
    · intro e2 p2
      rw [ht2, pairCount_map_reset]
      exact huniq e2 p2
  · have hzero : pairCount t e p = 0 := by
      unfold pairCount
      rw [List.countP_eq_zero]
      intro r hr
      intro hm
      exact hany (List.any_eq_true.mpr ⟨r, hr, hm⟩)
    have ht2 : (createEmailOTP t e p c now newId).2
        = t ++ [⟨newId, e, p, bcryptHash c, now + OTP_EXPIRY_MINUTES * 60 * 1000, none, 0, now⟩] := by
      rw [hsnd]
      unfold upsertEmailOTP
      rw [if_neg (by simpa using hany)]
    have hself : matchesPair
        ⟨newId, e, p, bcryptHash c, now + OTP_EXPIRY_MINUTES * 60 * 1000, none, 0, now⟩ e p = true := by
      simp [matchesPair]
    refine ⟨?_, ?_, ?_⟩
    · rw [ht2]
      unfold pairCount at hzero ⊢
      rw [List.countP_append, hzero]
      simp [hself]
    · intro r hr hm
      rw [ht2] at hr
      rcases List.mem_append.mp hr with hL | hR
      · exact absurd (List.any_eq_true.mpr ⟨r, hL, hm⟩) hany
      · rcases List.mem_singleton.mp hR with rfl
        exact ⟨rfl, rfl, rfl, rfl⟩
    · intro e2 p2
      rw [ht2]
      unfold pairCount at huniq hzero ⊢
      rw [List.countP_append]
      by_cases hm2 : matchesPair
          ⟨newId, e, p, bcryptHash c, now + OTP_EXPIRY_MINUTES * 60 * 1000, none, 0, now⟩ e2 p2 = true
      · have he2 : e2 = e ∧ p2 = p := by
          unfold matchesPair at hm2
          simp at hm2
          exact ⟨hm2.1.symm, hm2.2.symm⟩
        obtain ⟨rfl, rfl⟩ := he2
        rw [hzero]
        simp [hm2]
      · have : List.countP (fun r => matchesPair r e2 p2)
            [(⟨newId, e, p, bcryptHash c, now + OTP_EXPIRY_MINUTES * 60 * 1000, none, 0, now⟩ : OtpRecord)] = 0 := by
          simp [hm2]
        rw [this]
        have := huniq e2 p2
        omega

/-- C8 witness: issuing twice for the same pair on an initially empty
table keeps exactly one row for the pair, in the freshly reset state. -/
theorem createEmailOTP_upsert_witness :
    (∀ e2 p2, pairCount [] e2 p2 ≤ 1) ∧
    pairCount (createEmailOTP
      (createEmailOTP [] "user@example.com" .VERIFY_EMAIL "111111" 0 1).2
      "user@example.com" .VERIFY_EMAIL "222222" 5 2).2 "user@example.com" .VERIFY_EMAIL = 1 := by
  have h0 : ∀ e2 p2, pairCount [] e2 p2 ≤ 1 := fun e2 p2 => by simp [pairCount]
  have h1 := createEmailOTP_upsert_single_active_row [] "user@example.com" .VERIFY_EMAIL
    "111111" 0 1 h0
  have huniq1 := h1.2.2
  have h2 := createEmailOTP_upsert_single_active_row
    (createEmailOTP [] "user@example.com" .VERIFY_EMAIL "111111" 0 1).2
    "user@example.com" .VERIFY_EMAIL "222222" 5 2 huniq1
  exact ⟨h0, h2.1⟩

/-! ## Claim C10 -/

/-- C10: in the external-client case a hash mismatch raises the generic
error, writes the attempt increment straight to the committed store
through the fresh pool connection while the caller transactional view is
untouched, so a later rollback of the caller transaction still leaves
the increment in place; the committed rows keep every other field. -/
theorem verifyEmailOTP_external_increment_survives_rollback
    (s : TxnState) (e : String) (p : EmailOTPPurpose) (c : String) (now : Nat) (r : OtpRecord)
    (hf : findOtp s.txnView e p = some r)
    (hg : otpGuardFails r now = false)
    (hc : bcryptCompare c r.codeHash = false) :
    (verifyEmailOTPExternal s e p c now).1 = .err invalidOrExpired ∧
    (verifyEmailOTPExternal s e p c now).2.txnView = s.txnView ∧
    (verifyEmailOTPExternal s e p c now).2.committed = incrementAttempts s.committed r.id now ∧
    rollbackExternal (verifyEmailOTPExternal s e p c now).2
      = incrementAttempts s.committed r.id now ∧
    (∀ q ∈ s.committed,
       (decide (q.id = r.id) = true →
          { q with attemptsCount := q.attemptsCount + 1, updatedAt := now }
            ∈ (verifyEmailOTPExternal s e p c now).2.committed) ∧
       (decide (q.id = r.id) = false →
          q ∈ (verifyEmailOTPExternal s e p c now).2.committed)) := by
  have hrun : verifyEmailOTPExternal s e p c now
      = (.err invalidOrExpired, { s with committed := incrementAttempts s.committed r.id now }) := by
    simp [verifyEmailOTPExternal, hf, hg, hc]
  refine ⟨by rw [hrun], by rw [hrun], by rw [hrun], by rw [hrun]; rfl, ?_⟩
  intro q hq
  constructor
  · intro hid
    rw [hrun]
    have : ({ q with attemptsCount := q.attemptsCount + 1, updatedAt := now } : OtpRecord)
        = (fun x => if decide (x.id = r.id) then
            { x with attemptsCount := x.attemptsCount + 1, updatedAt := now } else x) q := by
      simp [hid]
    rw [this]
    exact List.mem_map_of_mem _ hq
  · intro hid
    rw [hrun]
    have : q = (fun x => if decide (x.id = r.id) then
        { x with attemptsCount := x.attemptsCount + 1, updatedAt := now } else x) q := by
      simp [hid]
    rw [this]
    exact List.mem_map_of_mem _ hq

/-- C10 witness: a concrete caller-managed transaction, a wrong code, and
the rollback still shows the incremented attempt count in the committed
store. -/
theorem verifyEmailOTP_external_witness :
    (verifyEmailOTPExternal
      ⟨[⟨1, "user@example.com", .VERIFY_EMAIL, bcryptHash "123456", 1000, none, 0, 0⟩],
       [⟨1, "user@example.com", .VERIFY_EMAIL, bcryptHash "123456", 1000, none, 0, 0⟩]⟩
      "user@example.com" .VERIFY_EMAIL "000000" 500).1 = .err invalidOrExpired ∧
    rollbackExternal (verifyEmailOTPExternal
      ⟨[⟨1, "user@example.com", .VERIFY_EMAIL, bcryptHash "123456", 1000, none, 0, 0⟩],
       [⟨1, "user@example.com", .VERIFY_EMAIL, bcryptHash "123456", 1000, none, 0, 0⟩]⟩
      "user@example.com" .VERIFY_EMAIL "000000" 500).2
      = incrementAttempts
          [⟨1, "user@example.com", .VERIFY_EMAIL, bcryptHash "123456", 1000, none, 0, 0⟩] 1 500 := by
  have h := verifyEmailOTP_external_increment_survives_rollback
    ⟨[⟨1, "user@example.com", .VERIFY_EMAIL, bcryptHash "123456", 1000, none, 0, 0⟩],
     [⟨1, "user@example.com", .VERIFY_EMAIL, bcryptHash "123456", 1000, none, 0, 0⟩]⟩
    "user@example.com" .VERIFY_EMAIL "000000" 500
    ⟨1, "user@example.com", .VERIFY_EMAIL, bcryptHash "123456", 1000, none, 0, 0⟩
    (by decide) (by decide) (by decide)
  exact ⟨h.1, h.2.2.2.1⟩

/-! ## Claim C9 -/

/-- C9: an identity-free request passes the cooldown untouched; a second
request for the same identity up to letter case inside the window is
rejected with the remaining wait rounded up to whole seconds; once the
window has elapsed a further request for the same identity proceeds. -/
theorem perEmailCooldown_case_insensitive_window
    (cd : Nat) (s0 : String → Option Nat) (e1 e2 e3 : String) (t1 t2 t3 : Nat)
    (hfresh : s0 (jsToLowerCase e1) = none)
    (hsame2 : jsToLowerCase e2 = jsToLowerCase e1)
    (hsame3 : jsToLowerCase e3 = jsToLowerCase e1)
    (ht1 : t1 ≠ 0) (h12 : t1 ≤ t2) (hwin : t2 - t1 < cd) (hafter : cd ≤ t3 - t1) :
    (∀ s now, perEmailCooldown cd s none now = (.proceed, s)) ∧
    (perEmailCooldown cd s0 (some e1) t1).1 = .proceed ∧
    (perEmailCooldown cd (perEmailCooldown cd s0 (some e1) t1).2 (some e2) t2).1
      = .rejected ⟨cooldownMessage ((cd - (t2 - t1) + 999) / 1000), 429,
                   ErrorCode.TOO_MANY_REQUESTS⟩ ∧
    (perEmailCooldown cd (perEmailCooldown cd s0 (some e1) t1).2 (some e2) t2).2
      = (perEmailCooldown cd s0 (some e1) t1).2 ∧
    (perEmailCooldown cd (perEmailCooldown cd s0 (some e1) t1).2 (some e3) t3).1 = .proceed := by
  have hs1 : (perEmailCooldown cd s0 (some e1) t1).2
      = emailCooldownSet s0 (jsToLowerCase e1) t1 := by
    simp [perEmailCooldown, hfresh]
  have hlook2 : emailCooldownSet s0 (jsToLowerCase e1) t1 (jsToLowerCase e2) = some t1 := by
    rw [hsame2]
    simp [emailCooldownSet]
  have hlook3 : emailCooldownSet s0 (jsToLowerCase e1) t1 (jsToLowerCase e3) = some t1 := by
    rw [hsame3]
    simp [emailCooldownSet]
  refine ⟨fun s now => rfl, ?_, ?_, ?_, ?_⟩
  · simp [perEmailCooldown, hfresh]
  · rw [hs1]
    simp [perEmailCooldown, hlook2, ht1, hwin]
  · rw [hs1]
    simp [perEmailCooldown, hlook2, ht1, hwin]
  · have hnot : ¬ (t3 - t1 < cd) := by omega
    rw [hs1]
    simp [perEmailCooldown, hlook3, hnot]

/-- C9 witness: with a 60-second window, user@example.com at second 1 and
USER@EXAMPLE.COM at second 31 is rejected telling the caller to wait 30
seconds, and a third request one millisecond after the window proceeds. -/
theorem perEmailCooldown_witness :
    perEmailCooldown 60000 (fun _ => none) none 7
      = (.proceed, fun _ => none) ∧
    (perEmailCooldown 60000
      (perEmailCooldown 60000 (fun _ => none) (some "user@example.com") 1000).2
      (some "USER@EXAMPLE.COM") 31000).1
      = .rejected ⟨cooldownMessage 30, 429, ErrorCode.TOO_MANY_REQUESTS⟩ ∧
    (perEmailCooldown 60000
      (perEmailCooldown 60000 (fun _ => none) (some "user@example.com") 1000).2
      (some "User@Example.Com") 61001).1 = .proceed := by
  have h := perEmailCooldown_case_insensitive_window 60000 (fun _ => none)
    "user@example.com" "USER@EXAMPLE.COM" "User@Example.Com" 1000 31000 61001
    rfl (by decide) (by decide) (by decide) (by decide) (by decide) (by decide)
  exact ⟨h.1 (fun _ => none) 7, h.2.2.1, h.2.2.2.2⟩

/-! ## Claim C3 -/

theorem splitCharAux_ne_nil (sep : Char) (l : List Char) :
    ∀ acc, splitCharAux sep l acc ≠ [] := by
  induction l with
  | nil =>
    intro acc
    simp [splitCharAux]
  | cons c rest ih =>
    intro acc
    unfold splitCharAux
    by_cases h : decide (c = sep) = true
    · simp [h]
    · simp only [h]
      simp at h
      simp [h]
      exact ih (c :: acc)

/-- A configured allow-list string always parses to a nonempty list. -/
theorem parseAllowedOrigins_some_ne_nil (s : String) : parseAllowedOrigins (some s) ≠ [] := by
  unfold parseAllowedOrigins jsSplitChar
  intro h
  exact splitCharAux_ne_nil ',' s.data [] (by simpa using h)

/-- C3: beginOAuth never proceeds when no allow-list is configured — for
a parseable redirect it fails with the configuration error, and it can
never return a ticket — and a parseable redirect whose origin is absent
from a configured allow-list fails with the invalid-input error. -/
theorem beginOAuth_redirect_allowlist_fail_closed (provider : String)
    (u : UrlParts) (now : Nat)
    (hp : supportedProviders.contains provider = true) :
    beginOAuthRoute provider true (some u) none now = .error oauthNotConfigured ∧
    (∀ rp parsed t, beginOAuthRoute provider rp parsed none now ≠ .ok t) ∧
    (∀ s, (parseAllowedOrigins (some s)).contains (u.protocol ++ "//" ++ u.host) = false →
       beginOAuthRoute provider true (some u) (some s) now = .error redirectOriginNotAllowed) := by
  have hp2 : provider ∈ supportedProviders := by simpa using hp
  refine ⟨?_, ?_, ?_⟩
  · simp [beginOAuthRoute, hp2, validateRedirectOrigin, parseAllowedOrigins]
  · intro rp parsed t
    unfold beginOAuthRoute
    by_cases hp3 : supportedProviders.contains provider = true
    · rw [if_pos hp3]
      cases rp with
      | false => simp
      | true =>
        cases parsed with
        | none => simp [validateRedirectOrigin]
        | some u2 => simp [validateRedirectOrigin, parseAllowedOrigins]
    · rw [if_neg hp3]
      simp
  · intro s hno
    have hno2 : ¬ ((u.protocol ++ "//" ++ u.host) ∈ parseAllowedOrigins (some s)) := by
      simpa using hno
    have hne := parseAllowedOrigins_some_ne_nil s
    have hlen : ¬ ((parseAllowedOrigins (some s)).length = 0) := by
      intro h
      exact hne (List.length_eq_zero.mp h)
    simp [beginOAuthRoute, hp2, validateRedirectOrigin, hlen, hno2]

/-- C3 witness: with no OAUTH_ALLOWED_ORIGINS the google begin route
fails with the configuration error, and with a one-origin allow-list a
redirect to a different origin fails with the invalid-input error. -/
theorem beginOAuth_redirect_witness :
    beginOAuthRoute "google" true (some ⟨"https:", "app.example"⟩) none 0
      = .error oauthNotConfigured ∧
    beginOAuthRoute "google" true (some ⟨"https:", "evil.example"⟩)
      (some "https://app.example") 0 = .error redirectOriginNotAllowed := by
  have h1 := beginOAuth_redirect_allowlist_fail_closed "google"
    ⟨"https:", "app.example"⟩ 0 (by decide)
  have h2 := beginOAuth_redirect_allowlist_fail_closed "google"
    ⟨"https:", "evil.example"⟩ 0 (by decide)
  exact ⟨h1.1, h2.2.2 "https://app.example" (by decide)⟩

end InsForge
